import Mathlib

set_option maxHeartbeats 1000000

/-!
Shallow embedding of the xArm control code
(`xarm_state_lib.py`, `xarm_controller_lib.py`, `app_xarm_memoryloop.py`).

Numeric values carried through program state are modelled as rationals
(Python floats, taken at claim level as exact reals/rationals); the pure pose
geometry of `_rpy_to_rot` / `_p2p_loop` is modelled over the real numbers.
Every SDK call is modelled by an explicit environment value recording that
call's outcome: a return code, or the raising of an exception.  Background
threads are modelled by recording the arguments the thread is spawned with
and, for the loops, by a finite schedule of poll results (fuel).
-/

namespace XArmCtrl

/-- The axis label type `AxisLiteral = Literal["x", "y", "z"]`. -/
inductive Axis
  | x
  | y
  | z
  deriving DecidableEq, Repr

/-- Outcome of a single SDK call that returns a code: either the returned
code, or the call raised an exception. -/
inductive Outcome
  | ret (code : Int)
  | exn
  deriving DecidableEq, Repr

/-- Outcome of `arm.get_position()`: either `(code, pose)` or an exception. -/
inductive GetPosOutcome
  | ret (code : Int) (pose : Option (List ℚ))
  | exn
  deriving DecidableEq, Repr

/-- The `ArmState` dataclass of `xarm_state_lib.py`, with its field defaults. -/
structure ArmState where
  connected : Bool := false
  ip : String := "192.168.1.221"
  teach_enabled : Bool := false
  playing : Bool := false
  init_pose : Option (List ℚ) := none
  sdk_version : Option String := none
  last_error : String := ""
  max_tcp_lin_vel_mmps : ℚ := 200
  max_tcp_lin_acc_mmps2 : ℚ := 1000
  last_play_speed_pct : ℚ := 50
  is_radian : Bool := false
  deriving DecidableEq, Repr

/-- Environment giving the outcome of each hardware call an operation of
`XArmController` may perform.  `exnMsg` stands for the text of the exception
object interpolated into status strings. -/
structure Env where
  setMode : Outcome := .ret 0
  setState : Outcome := .ret 0
  getPos : GetPosOutcome := .ret 0 none
  returnMove : Outcome := .ret 0
  armDisconnectRaises : Bool := false
  exnMsg : String := "exn"
  deriving DecidableEq, Repr

/-- In-memory state of an `XArmController` object.  `arm` models
`self._arm is not None`; `motionThread` records the argument tuple the
`_p2p_loop` background thread was last spawned with. -/
structure Controller where
  arm : Bool := false
  state : ArmState := {}
  stopEvent : Bool := false
  motionThread : Option (ℚ × ℚ × ℚ × Axis) := none
  deriving DecidableEq, Repr

/-- Model of `XArmController._check`: normalize SDK return-code handling.  The
best-effort err/warn enrichment of the failure text is elided (it only adds
environment-dependent text to the message). -/
def check (code : Int) (okMsg failMsg : String) : Bool × String :=
  if code = 0 then (true, okMsg)
  else (false, failMsg ++ " (code " ++ toString code ++ ")")

/-- Model of `XArmController._set_mode_and_ready`: set controller mode then ready
state; any exception is caught and converted to a failure message. -/
def setModeAndReady (c : Controller) (env : Env) (mode : Int) : Bool × String :=
  if c.arm = false then (false, "SDK not connected")
  else
    match env.setMode with
    | .exn => (false, "mode/state exception: " ++ env.exnMsg)
    | .ret code =>
      let r := check code ("mode=" ++ toString mode) "set_mode failed"
      if r.1 = false then (false, r.2)
      else
        match env.setState with
        | .exn => (false, "mode/state exception: " ++ env.exnMsg)
        | .ret code2 => check code2 "ready" "set_state failed"

/-- Model of `XArmController.stop_motion`.  Phase 1 signals the stop event and clears
`playing` under the lock; phase 2 (the join) changes no state; phase 3
restores position mode and returns to the saved pose.  A pose of arity other
than six makes the Python tuple destructuring raise, landing in the
`Stop error` handler. -/
def stopMotion (c : Controller) (env : Env) : String × Controller :=
  if c.state.connected = false ∨ c.arm = false then ("Not connected", c)
  else
    -- Phase 1: signal stop and capture the thread; `playing` is cleared
    -- unconditionally.
    let c1 : Controller :=
      if c.state.playing then
        { c with stopEvent := true, state := { c.state with playing := false } }
      else
        { c with state := { c.state with playing := false } }
    -- Phase 2: join without holding the lock: no state change in the model.
    -- Phase 3: `_set_mode_and_ready(0)` (result ignored, cannot raise), then
    -- return to the saved pose if one exists.
    match c1.state.init_pose with
    | none => ("Stopped", c1)
    | some pose =>
      if pose.length = 6 then
        -- ret_speed = max(20.0, min(vmax, vmax * pct)) is computed and passed
        -- to set_position; it does not affect the modelled outcome.
        match env.returnMove with
        | .exn =>
          let msg := "Stop error: " ++ env.exnMsg
          (msg, { c1 with state := { c1.state with last_error := msg } })
        | .ret code =>
          let r := check code "returned" "set_position failed"
          if r.1 then ("Stopped", c1)
          else ("Stopped, return pose error: " ++ r.2, c1)
      else
        -- `x, y, z, rx, ry, rz = list(self.state.init_pose)` raises.
        let msg := "Stop error: " ++ env.exnMsg
        (msg, { c1 with state := { c1.state with last_error := msg } })

/-- Model of `XArmController.disconnect`: stop any active motion, then release the
hardware link.  If `self._arm.disconnect()` raises, the inner `finally`
clears `self._arm`, and the outer handler records the error and returns
without reaching the `self.state.connected = False` line. -/
def disconnect (c : Controller) (envStop env : Env) : String × Controller :=
  -- Phase 1: stop outside the lock.
  let c1 := (stopMotion c envStop).2
  if c1.arm then
    if env.armDisconnectRaises then
      let msg := "Disconnect error: " ++ env.exnMsg
      (msg, { c1 with arm := false, state := { c1.state with last_error := msg } })
    else
      ("Disconnected",
        { c1 with arm := false,
                  state := { c1.state with connected := false, teach_enabled := false,
                                           last_error := "Disconnected" } })
  else
    ("Disconnected",
      { c1 with state := { c1.state with connected := false, teach_enabled := false,
                                         last_error := "Disconnected" } })

/-- The clamp `amp_mm = max(0.0, min(200.0, float(amplitude_cm) * 10.0))` in
`play_point_to_point`. -/
def ampClampMm (amplitude_cm : ℚ) : ℚ := max 0 (min 200 (amplitude_cm * 10))

/-- Result of `play_point_to_point`: UI status, new controller state, and
whether a background motion thread was spawned by this call. -/
structure PlayResult where
  status : String
  ctrl : Controller
  spawned : Bool
  deriving DecidableEq, Repr

/-- Model of `XArmController.play_point_to_point`. -/
def playPointToPoint (c : Controller) (env : Env)
    (amplitude_cm speed_percent accel_percent : ℚ) (axis : Axis) : PlayResult :=
  if c.state.connected = false ∨ c.arm = false then ⟨"Not connected", c, false⟩
  else if c.state.playing then ⟨"Already playing", c, false⟩
  else
    match env.getPos with
    | .exn =>
      let msg := "Play error: " ++ env.exnMsg
      ⟨msg, { c with state := { c.state with playing := false, last_error := msg } }, false⟩
    | .ret code pose =>
      if code ≠ 0 ∨ pose = none then
        ⟨"Failed to read TCP pose (code " ++ toString code ++ ")", c, false⟩
      else
        let c1 := { c with state := { c.state with init_pose := pose } }
        let r := setModeAndReady c1 env 0
        if r.1 = false then ⟨"Failed to enter position mode: " ++ r.2, c1, false⟩
        else
          let c2 : Controller :=
            { c1 with
              stopEvent := false,
              state := { c1.state with
                playing := true,
                last_play_speed_pct := max 0 (min 100 speed_percent) },
              motionThread := some (ampClampMm amplitude_cm, speed_percent, accel_percent, axis) }
          ⟨"Point-to-point motion started", c2, true⟩

/-- Conversion `math.radians`. -/
noncomputable def radiansR (x : ℝ) : ℝ := x * Real.pi / 180

/-- The 3x3 rotation matrix returned by `_rpy_to_rot`, with the entry names
used in the source. -/
structure Rot where
  R00 : ℝ
  R01 : ℝ
  R02 : ℝ
  R10 : ℝ
  R11 : ℝ
  R12 : ℝ
  R20 : ℝ
  R21 : ℝ
  R22 : ℝ

/-- Model of `XArmController._rpy_to_rot`: rotation matrix from roll, pitch, yaw
(intrinsic XYZ, i.e. `Rz * Ry * Rx` extrinsic), converting from degrees when
`is_radian` is false. -/
noncomputable def rpy_to_rot (rx ry rz : ℝ) (is_radian : Bool) : Rot :=
  let rx := if is_radian then rx else radiansR rx
  let ry := if is_radian then ry else radiansR ry
  let rz := if is_radian then rz else radiansR rz
  let cx := Real.cos rx
  let sx := Real.sin rx
  let cy := Real.cos ry
  let sy := Real.sin ry
  let cz := Real.cos rz
  let sz := Real.sin rz
  { R00 := cz * cy, R01 := cz * sy * sx - sz * cx, R02 := cz * sy * cx + sz * sx
    R10 := sz * cy, R11 := sz * sy * sx + cz * cx, R12 := sz * sy * cx - cz * sx
    R20 := -sy,     R21 := cy * sx,                R22 := cy * cx }

/-- Model of `XArmController._tool_axis_col`: tool-axis label to rotation-matrix
column index (the `Axis` type already rules out invalid labels, on which the
source raises `ValueError`). -/
def toolAxisCol (axis : Axis) : Nat :=
  match axis with
  | .x => 0
  | .y => 1
  | .z => 2

/-- Column selection `fx, fy, fz = R[0][col], R[1][col], R[2][col]`. -/
def Rot.colv (R : Rot) (col : Nat) : ℝ × ℝ × ℝ :=
  if col = 0 then (R.R00, R.R10, R.R20)
  else if col = 1 then (R.R01, R.R11, R.R21)
  else (R.R02, R.R12, R.R22)

/-- The unit direction computed in `_p2p_loop` lines 344-349: selected
rotation-matrix column, normalized (with the `max(1e-9, ...)` guard; Python
`** 0.5` on a nonnegative float is the square root). -/
noncomputable def toolAxisDir (rx ry rz : ℝ) (is_radian : Bool) (axis : Axis) : ℝ × ℝ × ℝ :=
  let R := rpy_to_rot rx ry rz is_radian
  let f := R.colv (toolAxisCol axis)
  let n := max (1e-9) (Real.sqrt (f.1 * f.1 + f.2.1 * f.2.1 + f.2.2 * f.2.2))
  (f.1 / n, f.2.1 / n, f.2.2 / n)

/-- The endpoint computation of `_p2p_loop` lines 350-352:
`half = max(0.0, amp_mm) / 2.0`, endpoints `center ∓ direction * half` with
the orientation components carried through unchanged. -/
noncomputable def p2pEndpoints (x y z rx ry rz : ℝ) (is_radian : Bool) (axis : Axis)
    (amp_mm : ℝ) : List ℝ × List ℝ :=
  let f := toolAxisDir rx ry rz is_radian axis
  let half := max 0 amp_mm / 2
  ([x - f.1 * half, y - f.2.1 * half, z - f.2.2 * half, rx, ry, rz],
   [x + f.1 * half, y + f.2.1 * half, z + f.2.2 * half, rx, ry, rz])

/-- The bounce loop of `_p2p_loop`: each iteration polls the stop event, and
issues one `set_position` toward the current target, which raises (breaking
the loop) when the schedule says so.  Returns the list of issued targets. -/
noncomputable def p2pIterate (pLow pHigh : List ℝ) (currentTargetHigh : Bool) :
    List (Bool × Bool) → List (List ℝ)
  | [] => []
  | (stopSet, moveRaises) :: polls =>
    if stopSet then []
    else
      let target := if currentTargetHigh then pHigh else pLow
      target :: (if moveRaises then [] else p2pIterate pLow pHigh (!currentTargetHigh) polls)

/-- Model of `XArmController._p2p_loop` as the list of `set_position` targets it
issues.  An `init_pose` that is empty or shorter than six components returns
immediately; a pose longer than six makes the Python destructuring
`x, y, z, rx, ry, rz = pose` raise, which also issues no move.  `polls` is
the finite schedule of (stop-event, move-raises) observations. -/
noncomputable def p2pLoopMoves (c : Controller) (amp_mm speed_percent accel_percent : ℚ)
    (axis : Axis) (polls : List (Bool × Bool)) : List (List ℝ) :=
  -- v_target / a_target are derived from the percentage sliders and the
  -- cached caps; they do not affect which targets are visited.
  let pose := c.state.init_pose.getD []
  if pose = [] ∨ pose.length < 6 then []
  else
    match pose with
    | [px, py, pz, prx, pry, prz] =>
      let ep := p2pEndpoints (px : ℝ) (py : ℝ) (pz : ℝ) (prx : ℝ) (pry : ℝ) (prz : ℝ)
        c.state.is_radian axis (amp_mm : ℝ)
      p2pIterate ep.1 ep.2 true polls
    | _ => []

end XArmCtrl

namespace MemoryLoop

/-- The `DetectConfig` dataclass with its defaults (0.015 rad, 1 s, 100 Hz). -/
structure DetectConfig where
  motion_threshold : ℚ := 0.015
  idle_timeout : ℚ := 1
  report_hz : ℚ := 100
  deriving DecidableEq, Repr

/-- The `AppState` dataclass with its defaults. -/
structure AppState where
  ip : String := ""
  connected : Bool := false
  teach_mode : Bool := false
  recording : Bool := false
  last_status : String := "idle"
  traj_filename : String := "gradio_record"
  playback_speed : ℚ := 1
  collision_sensitivity : Int := 3
  teach_sensitivity : Int := 3
  deriving DecidableEq, Repr

/-- In-memory state of an `XArmGradioController` as built by `__init__`:
`arm` models `self.arm is not None`, `play_thread` models an alive playback
thread. -/
structure GCtrl where
  detect_cfg : DetectConfig := {}
  arm : Bool := false
  state : AppState := {}
  cb_registered : Bool := false
  last_q : Option (List ℚ) := none
  last_motion_t : ℚ := 0
  record_started : Bool := false
  play_thread : Bool := false
  deriving DecidableEq, Repr

/-- Recorder calls issued to the SDK: `start_record_trajectory()` and
`stop_record_trajectory(filename=...)`. -/
inductive Event
  | startRecord
  | stopSave (filename : Option String)
  deriving DecidableEq, Repr

/-- Outcomes of the SDK calls `_on_report` may perform: whether
`start_record_trajectory` / `stop_record_trajectory` raise, and whether the
`set_mode(0)`/`set_state(0)` pair of the automatic teach exit succeeds. -/
structure ReportEnv where
  startRecordOk : Bool := true
  stopRecordOk : Bool := true
  modeExitOk : Bool := true
  deriving DecidableEq, Repr

/-- The accumulated `dq2 += d * d` over `zip(q, self._last_q)`. -/
def dq2 (q lq : List ℚ) : ℚ :=
  ((q.zip lq).map (fun p => (p.1 - p.2) * (p.1 - p.2))).sum

/-- Python `max_abs = max(abs(float(a) - float(b)) for a, b in zip(q, self._last_q))`. -/
def maxAbs (q lq : List ℚ) : ℚ :=
  ((q.zip lq).map (fun p => |p.1 - p.2|)).foldr max 0

/-- Python `moved = (dist >= motion_threshold) or (max_abs >= motion_threshold * 0.6)`
with `dist = math.sqrt(dq2)`, in a decidable rendering: over the rationals,
`sqrt dq2 ≥ thr` holds iff `thr ≤ 0 ∨ thr² ≤ dq2` (the equivalence with the
square-root form is `movedB_eq_true_iff`). -/
def movedB (lq q : List ℚ) (thr : ℚ) : Bool :=
  decide ((thr ≤ 0 ∨ thr ^ 2 ≤ dq2 q lq) ∨ thr * 0.6 ≤ maxAbs q lq)

/-- The `moved` flag of a tick: `False` while `self._last_q is None`. -/
def movedFlag (c : GCtrl) (q : List ℚ) : Bool :=
  match c.last_q with
  | none => false
  | some lq => movedB lq q c.detect_cfg.motion_threshold

/-- Model of `XArmGradioController._on_report`, one tick: returns the new controller
state and the recorder calls issued during the tick. -/
def onReport (c : GCtrl) (now : ℚ) (q : List ℚ) (env : ReportEnv) : GCtrl × List Event :=
  -- `if not q: return`
  if q = [] then (c, [])
  else if c.last_q = some [] then
    -- An empty previous vector makes `max()` run on an empty generator and
    -- raise; the outer `except Exception: pass` turns the whole tick into a
    -- no-op.  Unreachable from the initial state; modelled for totality.
    (c, [])
  else
    let moved := movedFlag c q
    let c := { c with last_q := some q }
    if c.state.teach_mode = false then
      ({ c with state := { c.state with last_status := "idle" } }, [])
    else if moved then
      let c := { c with last_motion_t := now }
      if c.record_started = false then
        if c.arm then
          if env.startRecordOk then
            ({ c with record_started := true,
                      state := { c.state with recording := true, last_status := "recording" } },
             [.startRecord])
          else
            -- `start_record_trajectory` raised: no flag is set.
            ({ c with state := { c.state with last_status := "record:start failed" } },
             [.startRecord])
        else
          ({ c with record_started := true,
                    state := { c.state with recording := true, last_status := "recording" } },
           [])
      else (c, [])
    else
      if c.record_started ∧ c.detect_cfg.idle_timeout ≤ now - c.last_motion_t then
        let saveEvents : List Event :=
          if c.arm then [.stopSave (some c.state.traj_filename)] else []
        let c2 :=
          if c.arm ∧ env.stopRecordOk = false then
            -- `stop_record_trajectory` raised: the recording flags stay set.
            { c with state := { c.state with last_status := "record:save failed" } }
          else
            { c with record_started := false,
                     state := { c.state with recording := false, last_status := "idle" } }
        -- Auto-exit teach mode after the save attempt, regardless of its
        -- success.  A raise from `set_mode(0)`/`set_state(0)` leaves
        -- `teach_mode` set; with no arm the flag is still cleared.
        let c3 :=
          if c2.arm then
            if env.modeExitOk then
              { c2 with cb_registered := false,
                        state := { c2.state with teach_mode := false } }
            else c2
          else
            { c2 with state := { c2.state with teach_mode := false } }
        (c3, saveEvents)
      else (c, [])

/-- Outcomes for the SDK calls of `connect` / `toggle_teach`. -/
structure OpEnv where
  connectRaises : Bool := false
  mode2Raises : Bool := false
  mode0Raises : Bool := false
  cbRegisterOk : Bool := true
  deriving DecidableEq, Repr

/-- Model of `XArmGradioController.connect` (the `XArmAPI is None` import-failure
branch is not modelled; a raise from bring-up lands in the handler that
resets `arm` and `connected`). -/
def connect (c : GCtrl) (ip : String) (env : OpEnv) : GCtrl × String :=
  if c.arm then (c, "already connected")
  else if env.connectRaises then
    ({ c with arm := false, state := { c.state with ip := ip, connected := false } },
     "connect failed")
  else
    ({ c with arm := true,
              state := { c.state with ip := ip, connected := true, last_status := "connected" } },
     "connected")

/-- Model of `XArmGradioController.disconnect`: every SDK raise is swallowed, and the
`finally` block performs the state cleanup unconditionally. -/
def disconnectM (c : GCtrl) : GCtrl × String × List Event :=
  let c := { c with play_thread := false }
  let evs : List Event :=
    if c.arm ∧ c.state.recording then [.stopSave none] else []
  let c := if c.arm ∧ c.cb_registered then { c with cb_registered := false } else c
  ({ c with arm := false,
            state := { c.state with connected := false, teach_mode := false,
                                    recording := false, last_status := "disconnected" } },
   "disconnected", evs)

/-- Model of `XArmGradioController.toggle_teach`.  Entering teach with a raise from
`set_mode(2)`/`set_state(0)` changes nothing; exiting teach first discards an
in-progress recording, and a raise from `set_mode(0)`/`set_state(0)` leaves
`teach_mode` set with the recording already cleared. -/
def toggleTeach (c : GCtrl) (enable : Bool) (env : OpEnv) : GCtrl × String × List Event :=
  if c.arm = false then (c, "not connected", [])
  else if enable then
    if env.mode2Raises then (c, "teach toggle failed", [])
    else
      let c := if c.cb_registered then c else { c with cb_registered := env.cbRegisterOk }
      ({ c with state := { c.state with teach_mode := true, last_status := "waiting" } },
       "waiting", [])
  else
    let evs : List Event := if c.state.recording then [.stopSave none] else []
    let c1 :=
      if c.state.recording then
        { c with record_started := false, state := { c.state with recording := false } }
      else c
    if env.mode0Raises then (c1, "teach toggle failed", evs)
    else
      let c2 := if c1.cb_registered then { c1 with cb_registered := false } else c1
      ({ c2 with state := { c2.state with teach_mode := false, last_status := "idle" } },
       "idle", evs)

/-- Model of `XArmGradioController.start_playback`. -/
def startPlayback (c : GCtrl) (ui_speed : ℚ) : GCtrl × String :=
  if c.arm = false then (c, "not connected")
  else if c.play_thread then (c, "playback already running")
  else
    ({ c with play_thread := true,
              state := { c.state with playback_speed := max 0 (min 5 ui_speed),
                                      last_status := "play:start" } },
     "play:start")

/-- Model of `XArmGradioController.stop_playback`. -/
def stopPlayback (c : GCtrl) : GCtrl × String :=
  ({ c with play_thread := false, state := { c.state with last_status := "play:stop" } },
   "play:stop")

/-- One UI-level operation on the controller, with the outcomes of its
hardware calls. -/
inductive Op
  | connectOp (ip : String) (env : OpEnv)
  | disconnectOp
  | toggleTeachOp (enable : Bool) (env : OpEnv)
  | reportOp (now : ℚ) (q : List ℚ) (env : ReportEnv)
  | startPlaybackOp (ui_speed : ℚ)
  | stopPlaybackOp

/-- State reached after an operation. -/
def applyOp (c : GCtrl) : Op → GCtrl
  | .connectOp ip env => (connect c ip env).1
  | .disconnectOp => (disconnectM c).1
  | .toggleTeachOp e env => (toggleTeach c e env).1
  | .reportOp now q env => (onReport c now q env).1
  | .startPlaybackOp s => (startPlayback c s).1
  | .stopPlaybackOp => (stopPlayback c).1

/-- Fold `_on_report` over a stream of ticks, collecting all recorder calls. -/
def runReports (c : GCtrl) : List (ℚ × List ℚ × ReportEnv) → GCtrl × List Event
  | [] => (c, [])
  | (t, q, env) :: rest =>
    let r := onReport c t q env
    let r2 := runReports r.1 rest
    (r2.1, r.2 ++ r2.2)

/-- A stream of ticks in which every tick that has a previous joint sample
stays strictly below both detection bounds (`dist < threshold` and
`max_abs < 0.6·threshold`), stated with the source's square-root distance. -/
def Quiet (c : GCtrl) : List (ℚ × List ℚ × ReportEnv) → Prop
  | [] => True
  | (t, q, env) :: rest =>
    (∀ lq, c.last_q = some lq →
      Real.sqrt ((dq2 q lq : ℚ) : ℝ) < ((c.detect_cfg.motion_threshold : ℚ) : ℝ) ∧
      ((maxAbs q lq : ℚ) : ℝ) < 0.6 * ((c.detect_cfg.motion_threshold : ℚ) : ℝ)) ∧
    Quiet (onReport c t q env).1 rest

end MemoryLoop

/-! ## Theorems about the claims -/

/-- C1: `XArmController.disconnect` does NOT always clear `connected`: when
the underlying `self._arm.disconnect()` raises, the handler returns with
`connected` still `true` (and the arm handle cleared), so the session keeps
claiming a connection to a dead link; the memory-loop controller's
`disconnect`, by contrast, clears `connected` in its `finally` block even
when the release raises.  Evaluated at a connected session whose release
call raises. -/
theorem claim_C1_disconnect_release_failure_keeps_connected :
    (XArmCtrl.disconnect { arm := true, state := { connected := true } }
        {} { armDisconnectRaises := true }).2.state.connected = true ∧
    (XArmCtrl.disconnect { arm := true, state := { connected := true } }
        {} { armDisconnectRaises := true }).1 = "Disconnect error: exn" ∧
    (MemoryLoop.disconnectM
        { arm := true, state := { connected := true } }).1.state.connected = false := by
  exact ⟨rfl, rfl, rfl⟩

/-- C2: a second `play_point_to_point` call while `playing` is already true
returns the "Already playing" status, spawns no background task, and leaves
the controller state unchanged. -/
theorem claim_C2_second_play_rejected (c : XArmCtrl.Controller) (env : XArmCtrl.Env)
    (a sp ac : ℚ) (axis : XArmCtrl.Axis)
    (hc : c.state.connected = true) (harm : c.arm = true) (hp : c.state.playing = true) :
    XArmCtrl.playPointToPoint c env a sp ac axis = ⟨"Already playing", c, false⟩ := by
  unfold XArmCtrl.playPointToPoint
  rw [if_neg (by simp [hc, harm]), if_pos hp]

/-- Witness for C2 at a concrete playing session. -/
theorem claim_C2_witness :
    XArmCtrl.playPointToPoint
        { arm := true, state := { connected := true, playing := true } } {} 5 50 50 .z =
      ⟨"Already playing",
        { arm := true, state := { connected := true, playing := true } }, false⟩ :=
  claim_C2_second_play_rejected _ _ _ _ _ _ rfl rfl rfl

/-- C3: on a connected session `stop_motion` leaves `playing = false` on
every path and returns one of the terminal statuses, including when the
return-to-pose move fails with a non-zero code or raises. -/
theorem claim_C3_stop_terminal (c : XArmCtrl.Controller) (env : XArmCtrl.Env)
    (hc : c.state.connected = true) (harm : c.arm = true) :
    (XArmCtrl.stopMotion c env).2.state.playing = false ∧
      ((XArmCtrl.stopMotion c env).1 = "Stopped" ∨
       (∃ s, (XArmCtrl.stopMotion c env).1 = "Stopped, return pose error: " ++ s) ∨
       (∃ s, (XArmCtrl.stopMotion c env).1 = "Stop error: " ++ s)) := by
  unfold XArmCtrl.stopMotion XArmCtrl.check
  rw [if_neg (by simp [hc, harm])]
  dsimp only
  repeat' split
  all_goals
    first
      | exact ⟨rfl, Or.inl rfl⟩
      | exact ⟨rfl, Or.inr (Or.inl ⟨_, rfl⟩)⟩
      | exact ⟨rfl, Or.inr (Or.inr ⟨_, rfl⟩)⟩

/-- Witness for C3: a connected session with a saved pose whose return move
fails with code 9. -/
theorem claim_C3_witness :
    (XArmCtrl.stopMotion
        { arm := true,
          state := { connected := true, playing := true,
                     init_pose := some [300, 0, 200, 180, 0, 0] } }
        { returnMove := .ret 9 }).2.state.playing = false ∧
      ((XArmCtrl.stopMotion
          { arm := true,
            state := { connected := true, playing := true,
                       init_pose := some [300, 0, 200, 180, 0, 0] } }
          { returnMove := .ret 9 }).1 = "Stopped" ∨
       (∃ s, (XArmCtrl.stopMotion
          { arm := true,
            state := { connected := true, playing := true,
                       init_pose := some [300, 0, 200, 180, 0, 0] } }
          { returnMove := .ret 9 }).1 = "Stopped, return pose error: " ++ s) ∨
       (∃ s, (XArmCtrl.stopMotion
          { arm := true,
            state := { connected := true, playing := true,
                       init_pose := some [300, 0, 200, 180, 0, 0] } }
          { returnMove := .ret 9 }).1 = "Stop error: " ++ s)) :=
  claim_C3_stop_terminal _ _ rfl rfl

/-- Each column of the rotation matrix built by `_rpy_to_rot` has unit
Euclidean norm. -/
theorem rot_col_unit (rx ry rz : ℝ) (b : Bool) (col : Nat) :
    ((XArmCtrl.rpy_to_rot rx ry rz b).colv col).1 *
        ((XArmCtrl.rpy_to_rot rx ry rz b).colv col).1 +
      ((XArmCtrl.rpy_to_rot rx ry rz b).colv col).2.1 *
        ((XArmCtrl.rpy_to_rot rx ry rz b).colv col).2.1 +
      ((XArmCtrl.rpy_to_rot rx ry rz b).colv col).2.2 *
        ((XArmCtrl.rpy_to_rot rx ry rz b).colv col).2.2 = 1 := by
  unfold XArmCtrl.rpy_to_rot XArmCtrl.Rot.colv
  dsimp only
  generalize (if b = true then rx else XArmCtrl.radiansR rx) = ax
  generalize (if b = true then ry else XArmCtrl.radiansR ry) = ay
  generalize (if b = true then rz else XArmCtrl.radiansR rz) = az
  have hx := Real.sin_sq_add_cos_sq ax
  have hy := Real.sin_sq_add_cos_sq ay
  have hz := Real.sin_sq_add_cos_sq az
  split_ifs
  · linear_combination (Real.cos ay) ^ 2 * hz + hy
  · linear_combination
      (Real.sin ay ^ 2 * Real.sin ax ^ 2 + Real.cos ax ^ 2) * hz + Real.sin ax ^ 2 * hy + hx
  · linear_combination
      (Real.sin ay ^ 2 * Real.cos ax ^ 2 + Real.sin ax ^ 2) * hz + Real.cos ax ^ 2 * hy + hx

/-- The normalized tool-axis direction of `_p2p_loop` is a unit vector: the
selected column already has norm 1, so the `max(1e-9, ...)` guard evaluates
to 1. -/
theorem toolAxisDir_unit (rx ry rz : ℝ) (b : Bool) (axis : XArmCtrl.Axis) :
    (XArmCtrl.toolAxisDir rx ry rz b axis).1 * (XArmCtrl.toolAxisDir rx ry rz b axis).1 +
      (XArmCtrl.toolAxisDir rx ry rz b axis).2.1 * (XArmCtrl.toolAxisDir rx ry rz b axis).2.1 +
      (XArmCtrl.toolAxisDir rx ry rz b axis).2.2 * (XArmCtrl.toolAxisDir rx ry rz b axis).2.2
      = 1 := by
  have hcol := rot_col_unit rx ry rz b (XArmCtrl.toolAxisCol axis)
  unfold XArmCtrl.toolAxisDir
  dsimp only
  rw [hcol, Real.sqrt_one, max_eq_right (by norm_num : (1e-9 : ℝ) ≤ 1)]
  simp only [div_one]
  exact hcol

/-- C4: for every center pose and every tool axis, the two endpoints
computed by `_p2p_loop` average back to the center coordinates exactly, the
offset direction is a unit vector, and both endpoints carry the center's
orientation unchanged. -/
theorem claim_C4_endpoint_symmetry (x y z rx ry rz amp : ℝ) (b : Bool)
    (axis : XArmCtrl.Axis) :
    ((XArmCtrl.p2pEndpoints x y z rx ry rz b axis amp).1.length = 6 ∧
     (XArmCtrl.p2pEndpoints x y z rx ry rz b axis amp).2.length = 6) ∧
    (((XArmCtrl.p2pEndpoints x y z rx ry rz b axis amp).1[0]! +
        (XArmCtrl.p2pEndpoints x y z rx ry rz b axis amp).2[0]!) / 2 = x ∧
     ((XArmCtrl.p2pEndpoints x y z rx ry rz b axis amp).1[1]! +
        (XArmCtrl.p2pEndpoints x y z rx ry rz b axis amp).2[1]!) / 2 = y ∧
     ((XArmCtrl.p2pEndpoints x y z rx ry rz b axis amp).1[2]! +
        (XArmCtrl.p2pEndpoints x y z rx ry rz b axis amp).2[2]!) / 2 = z) ∧
    ((XArmCtrl.p2pEndpoints x y z rx ry rz b axis amp).1[3]! = rx ∧
     (XArmCtrl.p2pEndpoints x y z rx ry rz b axis amp).1[4]! = ry ∧
     (XArmCtrl.p2pEndpoints x y z rx ry rz b axis amp).1[5]! = rz ∧
     (XArmCtrl.p2pEndpoints x y z rx ry rz b axis amp).2[3]! = rx ∧
     (XArmCtrl.p2pEndpoints x y z rx ry rz b axis amp).2[4]! = ry ∧
     (XArmCtrl.p2pEndpoints x y z rx ry rz b axis amp).2[5]! = rz) ∧
    (XArmCtrl.toolAxisDir rx ry rz b axis).1 * (XArmCtrl.toolAxisDir rx ry rz b axis).1 +
      (XArmCtrl.toolAxisDir rx ry rz b axis).2.1 * (XArmCtrl.toolAxisDir rx ry rz b axis).2.1 +
      (XArmCtrl.toolAxisDir rx ry rz b axis).2.2 * (XArmCtrl.toolAxisDir rx ry rz b axis).2.2
      = 1 := by
  refine ⟨?_, ?_, ?_, toolAxisDir_unit rx ry rz b axis⟩ <;>
    unfold XArmCtrl.p2pEndpoints <;> dsimp only
  · exact ⟨by simp, by simp⟩
  · refine ⟨?_, ?_, ?_⟩ <;> · simp; try ring
  · refine ⟨by simp, by simp, by simp, by simp, by simp, by simp⟩

/-- C5: the effective peak-to-peak amplitude is clamped into [0, 200] mm, a
request of 50 cm yields exactly 200 mm, and a play call that spawns the
motion task passes exactly this clamped amplitude to `_p2p_loop`. -/
theorem claim_C5_amplitude_clamped (a : ℚ) (c : XArmCtrl.Controller) (env : XArmCtrl.Env)
    (sp ac : ℚ) (axis : XArmCtrl.Axis) :
    (0 ≤ XArmCtrl.ampClampMm a ∧ XArmCtrl.ampClampMm a ≤ 200) ∧
    XArmCtrl.ampClampMm 50 = 200 ∧
    ((XArmCtrl.playPointToPoint c env a sp ac axis).spawned = true →
      (XArmCtrl.playPointToPoint c env a sp ac axis).ctrl.motionThread =
        some (XArmCtrl.ampClampMm a, sp, ac, axis)) := by
  refine ⟨⟨le_max_left 0 _, max_le (by norm_num) (min_le_left _ _)⟩, by
    unfold XArmCtrl.ampClampMm; norm_num, ?_⟩
  intro hsp
  unfold XArmCtrl.playPointToPoint at hsp ⊢
  rcases hgp : env.getPos with ⟨code, pose⟩ | _ <;>
    simp only [hgp] at hsp ⊢ <;>
    split_ifs at hsp ⊢ <;>
    simp_all

/-- Witness for C5: a 50 cm request on a fresh connected session spawns the
loop with a 200 mm peak-to-peak amplitude. -/
theorem claim_C5_witness :
    (XArmCtrl.playPointToPoint
        { arm := true, state := { connected := true } }
        { getPos := .ret 0 (some [300, 0, 200, 180, 0, 0]) }
        50 30 40 .z).ctrl.motionThread = some (XArmCtrl.ampClampMm 50, 30, 40, .z) :=
  (claim_C5_amplitude_clamped 50
      { arm := true, state := { connected := true } }
      { getPos := .ret 0 (some [300, 0, 200, 180, 0, 0]) } 30 40 .z).2.2 rfl

/-- C8 fails as stated: when `get_position` returns code 0 with a
three-component pose, `play_point_to_point` accepts it, sets
`playing = true` and spawns the background task (which then exits without
moving), contradicting "no background task runs, playing remains false". -/
theorem claim_C8_counterexample :
    (XArmCtrl.playPointToPoint
        { arm := true, state := { connected := true } }
        { getPos := .ret 0 (some [1, 2, 3]) } 5 50 50 .z).spawned = true ∧
    (XArmCtrl.playPointToPoint
        { arm := true, state := { connected := true } }
        { getPos := .ret 0 (some [1, 2, 3]) } 5 50 50 .z).ctrl.state.playing = true :=
  ⟨rfl, rfl⟩

/-- C8 (amended): a captured pose with fewer than six components makes
`_p2p_loop` return before issuing any move command, for every poll
schedule — the spawned task performs no motion, although `playing` has been
set and the task does run. -/
theorem claim_C8_short_pose_issues_no_moves (c : XArmCtrl.Controller) (p : List ℚ)
    (amp sp ac : ℚ) (axis : XArmCtrl.Axis) (polls : List (Bool × Bool))
    (hp : c.state.init_pose = some p) (hlen : p.length < 6) :
    XArmCtrl.p2pLoopMoves c amp sp ac axis polls = [] := by
  unfold XArmCtrl.p2pLoopMoves
  rw [hp]
  dsimp only [Option.getD]
  rw [if_pos (Or.inr hlen)]

/-- Witness for the amended C8 at a three-component pose. -/
theorem claim_C8_witness :
    XArmCtrl.p2pLoopMoves
      { arm := true, state := { connected := true, init_pose := some [1, 2, 3] } }
      200 50 50 .z [(false, false), (false, false)] = [] :=
  claim_C8_short_pose_issues_no_moves _ [1, 2, 3] _ _ _ _ _ rfl (by norm_num)

/-- C9 fails as stated: if `stop_record_trajectory` raises during the
idle-timeout save, `_on_report` leaves `recording = true` yet still exits
teach mode, reaching a state with recording active and teach off. -/
theorem claim_C9_counterexample :
    (MemoryLoop.onReport
        { arm := true,
          state := { connected := true, teach_mode := true, recording := true },
          cb_registered := true,
          last_q := some [0, 0, 0, 0, 0, 0],
          last_motion_t := 0,
          record_started := true }
        2 [0, 0, 0, 0, 0, 0] { stopRecordOk := false }).1.state.recording = true ∧
    (MemoryLoop.onReport
        { arm := true,
          state := { connected := true, teach_mode := true, recording := true },
          cb_registered := true,
          last_q := some [0, 0, 0, 0, 0, 0],
          last_motion_t := 0,
          record_started := true }
        2 [0, 0, 0, 0, 0, 0] { stopRecordOk := false }).1.state.teach_mode = false := by
  constructor <;>
  · norm_num [MemoryLoop.onReport, MemoryLoop.movedFlag, MemoryLoop.movedB,
      MemoryLoop.dq2, MemoryLoop.maxAbs]
    simp

/-- C9 (amended): the invariant "recording active implies teach mode on" is
preserved by every operation (connect, disconnect, teach toggle, report
tick, playback start/stop), provided the stop-record save call of a report
tick does not raise. -/
theorem claim_C9_invariant_preserved (c : MemoryLoop.GCtrl) (op : MemoryLoop.Op)
    (hInv : c.state.recording = true → c.state.teach_mode = true)
    (hEnv : ∀ now q env, op = MemoryLoop.Op.reportOp now q env → env.stopRecordOk = true) :
    (MemoryLoop.applyOp c op).state.recording = true →
      (MemoryLoop.applyOp c op).state.teach_mode = true := by
  cases op with
  | connectOp ip env =>
    dsimp only [MemoryLoop.applyOp]
    unfold MemoryLoop.connect
    split_ifs <;> exact hInv
  | disconnectOp =>
    dsimp only [MemoryLoop.applyOp]
    unfold MemoryLoop.disconnectM
    dsimp only
    intro h
    exact absurd h (by simp)
  | toggleTeachOp e env =>
    dsimp only [MemoryLoop.applyOp]
    unfold MemoryLoop.toggleTeach
    split_ifs <;> simp_all <;> split_ifs <;> simp_all
  | reportOp now q env =>
    have hs : env.stopRecordOk = true := hEnv now q env rfl
    dsimp only [MemoryLoop.applyOp]
    unfold MemoryLoop.onReport
    dsimp only
    split_ifs <;> simp_all <;> split_ifs <;> simp_all
  | startPlaybackOp s =>
    dsimp only [MemoryLoop.applyOp]
    unfold MemoryLoop.startPlayback
    split_ifs <;> exact hInv
  | stopPlaybackOp =>
    dsimp only [MemoryLoop.applyOp]
    unfold MemoryLoop.stopPlayback
    exact hInv

/-- Witness for the amended C9: a tick that starts a recording (so the new
state has recording active) indeed has teach mode on. -/
theorem claim_C9_witness :
    (MemoryLoop.applyOp
        { arm := true,
          state := { connected := true, teach_mode := true },
          cb_registered := true, last_q := some [0, 0], last_motion_t := 0 }
        (MemoryLoop.Op.reportOp 1 [1, 0] {})).state.teach_mode = true :=
  claim_C9_invariant_preserved _ _ (fun _ => rfl) (fun _ _ _ h => by cases h; rfl)
    (by norm_num [MemoryLoop.applyOp, MemoryLoop.onReport, MemoryLoop.movedFlag,
        MemoryLoop.movedB, MemoryLoop.dq2, MemoryLoop.maxAbs]
        <;> simp)

/-- The accumulated sum of squared joint deltas is nonnegative. -/
theorem dq2_nonneg (q lq : List ℚ) : 0 ≤ MemoryLoop.dq2 q lq := by
  unfold MemoryLoop.dq2
  apply List.sum_nonneg
  intro a ha
  simp only [List.mem_map] at ha
  obtain ⟨p, -, rfl⟩ := ha
  exact mul_self_nonneg _

/-- The decidable `movedB` agrees with the source formula
`dist >= motion_threshold or max_abs >= motion_threshold * 0.6`, where
`dist` is the real square root of the squared-delta sum. -/
theorem movedB_eq_true_iff (lq q : List ℚ) (thr : ℚ) :
    MemoryLoop.movedB lq q thr = true ↔
      ((thr : ℝ) ≤ Real.sqrt ((MemoryLoop.dq2 q lq : ℚ) : ℝ) ∨
       (thr : ℝ) * 0.6 ≤ ((MemoryLoop.maxAbs q lq : ℚ) : ℝ)) := by
  unfold MemoryLoop.movedB
  rw [decide_eq_true_eq]
  constructor
  · rintro (h | h)
    · left
      rcases h with h0 | hsq
      · exact le_trans (by exact_mod_cast h0) (Real.sqrt_nonneg _)
      · rcases le_or_lt thr 0 with h0 | hpos
        · exact le_trans (by exact_mod_cast h0) (Real.sqrt_nonneg _)
        · rw [Real.le_sqrt' (by exact_mod_cast hpos)]
          exact_mod_cast hsq
    · right
      have h' : ((thr * 0.6 : ℚ) : ℝ) ≤ ((MemoryLoop.maxAbs q lq : ℚ) : ℝ) := by
        exact_mod_cast h
      rw [Rat.cast_mul, (by norm_num : ((0.6 : ℚ) : ℝ) = 0.6)] at h'
      exact h'
  · rintro (h | h)
    · rcases le_or_lt thr 0 with h0 | hpos
      · exact Or.inl (Or.inl h0)
      · refine Or.inl (Or.inr ?_)
        rw [Real.le_sqrt' (by exact_mod_cast hpos)] at h
        exact_mod_cast h
    · refine Or.inr ?_
      have h' : ((thr * 0.6 : ℚ) : ℝ) ≤ ((MemoryLoop.maxAbs q lq : ℚ) : ℝ) := by
        rw [Rat.cast_mul, (by norm_num : ((0.6 : ℚ) : ℝ) = 0.6)]
        exact h
      exact_mod_cast h'

/-- A tick strictly below both detection bounds, on a state that has not
started recording, starts nothing: the record flags are unchanged and no
recorder call is issued. -/
theorem onReport_quiet_step (c : MemoryLoop.GCtrl) (now : ℚ) (q : List ℚ)
    (env : MemoryLoop.ReportEnv)
    (hrs : c.record_started = false)
    (hquiet : ∀ lq, c.last_q = some lq →
      Real.sqrt ((MemoryLoop.dq2 q lq : ℚ) : ℝ) < ((c.detect_cfg.motion_threshold : ℚ) : ℝ) ∧
      ((MemoryLoop.maxAbs q lq : ℚ) : ℝ) < 0.6 * ((c.detect_cfg.motion_threshold : ℚ) : ℝ)) :
    (MemoryLoop.onReport c now q env).1.record_started = false ∧
    (MemoryLoop.onReport c now q env).1.state.recording = c.state.recording ∧
    (MemoryLoop.onReport c now q env).2 = [] := by
  have hmv : MemoryLoop.movedFlag c q = false := by
    unfold MemoryLoop.movedFlag
    cases hl : c.last_q with
    | none => rfl
    | some lq =>
      rcases hquiet lq hl with ⟨h1, h2⟩
      by_contra hb
      rw [Bool.not_eq_false] at hb
      rcases (movedB_eq_true_iff lq q _).mp hb with h | h
      · linarith
      · linarith
  unfold MemoryLoop.onReport
  dsimp only
  split_ifs <;> simp_all <;> split_ifs <;> simp_all

/-- Over a quiet report stream no recording ever starts and no recorder
call is issued. -/
theorem runReports_quiet (c : MemoryLoop.GCtrl)
    (reports : List (ℚ × List ℚ × MemoryLoop.ReportEnv))
    (hrs : c.record_started = false) (hquiet : MemoryLoop.Quiet c reports) :
    (MemoryLoop.runReports c reports).1.state.recording = c.state.recording ∧
    (MemoryLoop.runReports c reports).1.record_started = false ∧
    (MemoryLoop.runReports c reports).2 = [] := by
  induction reports generalizing c with
  | nil => exact ⟨rfl, hrs, rfl⟩
  | cons t rest ih =>
    obtain ⟨t1, q1, e1⟩ := t
    obtain ⟨hq1, hqrest⟩ := hquiet
    have hstep := onReport_quiet_step c t1 q1 e1 hrs hq1
    have hrest := ih _ hstep.1 hqrest
    unfold MemoryLoop.runReports
    dsimp only
    refine ⟨?_, hrest.2.1, ?_⟩
    · rw [hrest.1, hstep.2.1]
    · rw [hstep.2.2, hrest.2.2]
      rfl

/-- C6: the detector's dual criterion is exactly
`dist ≥ threshold ∨ max_abs ≥ 0.6·threshold`; a report stream staying
strictly below both bounds never starts a recording; and a tick crossing
either bound while in teach mode (with the recorder call succeeding) starts
one. -/
theorem claim_C6_motion_detection
    (lq0 q0 : List ℚ) (thr0 : ℚ)
    (c : MemoryLoop.GCtrl) (reports : List (ℚ × List ℚ × MemoryLoop.ReportEnv))
    (cS : MemoryLoop.GCtrl) (now : ℚ) (q lq : List ℚ) (env : MemoryLoop.ReportEnv) :
    (MemoryLoop.movedB lq0 q0 thr0 = true ↔
       ((thr0 : ℝ) ≤ Real.sqrt ((MemoryLoop.dq2 q0 lq0 : ℚ) : ℝ) ∨
        (thr0 : ℝ) * 0.6 ≤ ((MemoryLoop.maxAbs q0 lq0 : ℚ) : ℝ))) ∧
    (c.record_started = false → c.state.recording = false →
       MemoryLoop.Quiet c reports →
       (MemoryLoop.runReports c reports).1.state.recording = false ∧
       (MemoryLoop.runReports c reports).2 = []) ∧
    (cS.arm = true → cS.state.teach_mode = true → cS.record_started = false →
       env.startRecordOk = true → q ≠ [] → cS.last_q = some lq → lq ≠ [] →
       (((cS.detect_cfg.motion_threshold : ℚ) : ℝ) ≤
          Real.sqrt ((MemoryLoop.dq2 q lq : ℚ) : ℝ) ∨
        ((cS.detect_cfg.motion_threshold : ℚ) : ℝ) * 0.6 ≤
          ((MemoryLoop.maxAbs q lq : ℚ) : ℝ)) →
       (MemoryLoop.onReport cS now q env).1.state.recording = true ∧
       (MemoryLoop.onReport cS now q env).2 = [MemoryLoop.Event.startRecord]) := by
  refine ⟨movedB_eq_true_iff lq0 q0 thr0, ?_, ?_⟩
  · intro hrs hrec hq
    have h := runReports_quiet c reports hrs hq
    exact ⟨by rw [h.1, hrec], h.2.2⟩
  · intro harm hteach hrs hok hq hlast hlq hcross
    have hmv : MemoryLoop.movedFlag cS q = true := by
      simp only [MemoryLoop.movedFlag, hlast]
      exact (movedB_eq_true_iff lq q _).mpr hcross
    have hlast' : ¬cS.last_q = some [] := by
      rw [hlast]
      simp [hlq]
    unfold MemoryLoop.onReport
    dsimp only
    split_ifs <;> simp_all

/-- Witness for C6: a quiet single-tick stream starts nothing, while a
single-joint jog of 1 rad crosses the `max_abs` bound and starts a
recording. -/
theorem claim_C6_witness :
    ((MemoryLoop.runReports
        { arm := true, state := { connected := true, teach_mode := true } }
        [(1, [0, 0], {})]).1.state.recording = false ∧
     (MemoryLoop.runReports
        { arm := true, state := { connected := true, teach_mode := true } }
        [(1, [0, 0], {})]).2 = []) ∧
    ((MemoryLoop.onReport
        { arm := true, state := { connected := true, teach_mode := true },
          cb_registered := true, last_q := some [0, 0] }
        1 [1, 0] {}).1.state.recording = true ∧
     (MemoryLoop.onReport
        { arm := true, state := { connected := true, teach_mode := true },
          cb_registered := true, last_q := some [0, 0] }
        1 [1, 0] {}).2 = [MemoryLoop.Event.startRecord]) := by
  constructor
  · exact (claim_C6_motion_detection [] [] 0
        { arm := true, state := { connected := true, teach_mode := true } }
        [(1, [0, 0], {})]
        { arm := true, state := { connected := true, teach_mode := true } }
        0 [] [] {}).2.1 rfl rfl ⟨fun lq h => Option.noConfusion h, trivial⟩
  · exact (claim_C6_motion_detection [] [] 0
        { arm := true, state := { connected := true, teach_mode := true } } []
        { arm := true, state := { connected := true, teach_mode := true },
          cb_registered := true, last_q := some [0, 0] }
        1 [1, 0] [0, 0] {}).2.2 rfl rfl rfl rfl (by simp) rfl (by simp)
      (Or.inr (by norm_num [MemoryLoop.maxAbs, max_def]))

/-- With teach mode off, a report tick issues no recorder call and leaves
teach mode off. -/
theorem onReport_teach_off (c : MemoryLoop.GCtrl) (now : ℚ) (q : List ℚ)
    (env : MemoryLoop.ReportEnv) (h : c.state.teach_mode = false) :
    (MemoryLoop.onReport c now q env).2 = [] ∧
      (MemoryLoop.onReport c now q env).1.state.teach_mode = false := by
  unfold MemoryLoop.onReport
  dsimp only
  split_ifs <;> simp_all

/-- With teach mode off, a whole report stream issues no recorder call. -/
theorem runReports_teach_off (c : MemoryLoop.GCtrl)
    (l : List (ℚ × List ℚ × MemoryLoop.ReportEnv)) (h : c.state.teach_mode = false) :
    (MemoryLoop.runReports c l).2 = [] ∧
      (MemoryLoop.runReports c l).1.state.teach_mode = false := by
  induction l generalizing c with
  | nil => exact ⟨rfl, h⟩
  | cons t rest ih =>
    obtain ⟨t1, q1, e1⟩ := t
    have h1 := onReport_teach_off c t1 q1 e1 h
    have h2 := ih _ h1.2
    unfold MemoryLoop.runReports
    dsimp only
    refine ⟨?_, h2.2⟩
    rw [h1.1, h2.1]
    rfl

/-- C7: while a recording is active in teach mode, the first tick that is
not motion and whose idle time has reached `idle_timeout` performs exactly
one stop-and-save, under `traj_filename`; teach mode is exited whether or
not the save raised (given the mode-exit calls succeed); and no later tick
of the report stream can issue another recorder call. -/
theorem claim_C7_idle_save_once (c : MemoryLoop.GCtrl) (now : ℚ) (q lq : List ℚ)
    (env : MemoryLoop.ReportEnv) (rest : List (ℚ × List ℚ × MemoryLoop.ReportEnv))
    (harm : c.arm = true) (hteach : c.state.teach_mode = true)
    (hstarted : c.record_started = true)
    (hq : q ≠ []) (hlast : c.last_q = some lq) (hlq : lq ≠ [])
    (hmoved : MemoryLoop.movedB lq q c.detect_cfg.motion_threshold = false)
    (hidle : c.detect_cfg.idle_timeout ≤ now - c.last_motion_t)
    (hexit : env.modeExitOk = true) :
    (MemoryLoop.onReport c now q env).2 =
      [MemoryLoop.Event.stopSave (some c.state.traj_filename)] ∧
    (MemoryLoop.onReport c now q env).1.state.teach_mode = false ∧
    (MemoryLoop.runReports (MemoryLoop.onReport c now q env).1 rest).2 = [] ∧
    (∀ (c' : MemoryLoop.GCtrl) (t' : ℚ) (q' lq' : List ℚ) (env' : MemoryLoop.ReportEnv),
       c'.last_q = some lq' → lq' ≠ [] → q' ≠ [] →
       MemoryLoop.movedB lq' q' c'.detect_cfg.motion_threshold = false →
       t' - c'.last_motion_t < c'.detect_cfg.idle_timeout →
       (MemoryLoop.onReport c' t' q' env').2 = []) := by
  have hlast' : ¬c.last_q = some [] := by
    rw [hlast]
    simp [hlq]
  have hmv : MemoryLoop.movedFlag c q = false := by
    simp only [MemoryLoop.movedFlag, hlast]
    exact hmoved
  have h12 : (MemoryLoop.onReport c now q env).2 =
      [MemoryLoop.Event.stopSave (some c.state.traj_filename)] ∧
      (MemoryLoop.onReport c now q env).1.state.teach_mode = false := by
    unfold MemoryLoop.onReport
    dsimp only
    split_ifs <;> simp_all
  refine ⟨h12.1, h12.2, (runReports_teach_off _ rest h12.2).1, ?_⟩
  intro c' t' q' lq' env' hlast1 hlq1 hq1 hmoved1 hlt
  have hlast1' : ¬c'.last_q = some [] := by
    rw [hlast1]
    simp [hlq1]
  have hmv1 : MemoryLoop.movedFlag c' q' = false := by
    simp only [MemoryLoop.movedFlag, hlast1]
    exact hmoved1
  have hnle := not_le.mpr hlt
  unfold MemoryLoop.onReport
  dsimp only
  split_ifs <;> simp_all

/-- Witness for C7: an idle tick two seconds after the last motion saves
once, exits teach mode, and a later (even moving) tick records nothing. -/
theorem claim_C7_witness :
    (MemoryLoop.onReport
        { arm := true,
          state := { connected := true, teach_mode := true, recording := true },
          cb_registered := true, last_q := some [0, 0], last_motion_t := 0,
          record_started := true }
        2 [0, 0] {}).2 =
      [MemoryLoop.Event.stopSave
        (some ({ arm := true,
                 state := { connected := true, teach_mode := true, recording := true },
                 cb_registered := true, last_q := some [0, 0], last_motion_t := 0,
                 record_started := true } : MemoryLoop.GCtrl).state.traj_filename)] ∧
    (MemoryLoop.onReport
        { arm := true,
          state := { connected := true, teach_mode := true, recording := true },
          cb_registered := true, last_q := some [0, 0], last_motion_t := 0,
          record_started := true }
        2 [0, 0] {}).1.state.teach_mode = false ∧
    (MemoryLoop.runReports
        (MemoryLoop.onReport
          { arm := true,
            state := { connected := true, teach_mode := true, recording := true },
            cb_registered := true, last_q := some [0, 0], last_motion_t := 0,
            record_started := true }
          2 [0, 0] {}).1 [(3, [9, 9], {})]).2 = [] ∧
    (MemoryLoop.onReport
        { arm := true,
          state := { connected := true, teach_mode := true, recording := true },
          cb_registered := true, last_q := some [0, 0], last_motion_t := 0,
          record_started := true }
        (1/2) [0, 0] {}).2 = [] := by
  have h := claim_C7_idle_save_once
    { arm := true,
      state := { connected := true, teach_mode := true, recording := true },
      cb_registered := true, last_q := some [0, 0], last_motion_t := 0,
      record_started := true }
    2 [0, 0] [0, 0] {} [(3, [9, 9], {})]
    rfl rfl rfl (by simp) rfl (by simp)
    (by norm_num [MemoryLoop.movedB, MemoryLoop.dq2, MemoryLoop.maxAbs])
    (by norm_num) rfl
  exact ⟨h.1, h.2.1, h.2.2.1,
    h.2.2.2 _ (1/2) [0, 0] [0, 0] {} rfl (by simp) (by simp)
      (by norm_num [MemoryLoop.movedB, MemoryLoop.dq2, MemoryLoop.maxAbs]) (by norm_num)⟩

/-- C10: a report tick arriving while no previous joint sample exists
(`self._last_q is None`, as right after callback registration) is never
classified as motion, issues no recorder call, and leaves `recording`
unchanged, whatever the joint values. -/
theorem claim_C10_first_report_never_motion (c : MemoryLoop.GCtrl) (now : ℚ)
    (q : List ℚ) (env : MemoryLoop.ReportEnv)
    (hnone : c.last_q = none) (hrs : c.record_started = false) :
    MemoryLoop.movedFlag c q = false ∧
    (MemoryLoop.onReport c now q env).2 = [] ∧
    (MemoryLoop.onReport c now q env).1.state.recording = c.state.recording := by
  have hmv : MemoryLoop.movedFlag c q = false := by
    unfold MemoryLoop.movedFlag
    rw [hnone]
  refine ⟨hmv, ?_, ?_⟩ <;>
  · unfold MemoryLoop.onReport
    split_ifs <;> simp_all <;> split_ifs <;> simp_all

/-- Witness for C10: the very first report after entering teach mode, with
arbitrary nonzero joints, starts nothing. -/
theorem claim_C10_witness :
    MemoryLoop.movedFlag
      { arm := true, state := { connected := true, teach_mode := true } } [5, 5, 5] = false ∧
    (MemoryLoop.onReport
      { arm := true, state := { connected := true, teach_mode := true } }
      1 [5, 5, 5] {}).2 = [] ∧
    (MemoryLoop.onReport
      { arm := true, state := { connected := true, teach_mode := true } }
      1 [5, 5, 5] {}).1.state.recording =
      ({ arm := true,
         state := { connected := true, teach_mode := true } } : MemoryLoop.GCtrl).state.recording :=
  claim_C10_first_report_never_motion _ _ _ _ rfl rfl
